import Mathlib

/-!
Verification development for the Superhero-Hub backend (`server.js`).

The backend keeps a module-level array `cachedHeroes`, populated on demand
by a 26-letter sweep against the upstream superhero API, and serves three
routes: `GET /api/heroes` (list, optional alignment filter),
`GET /api/superhero` (search by name substring), and
`GET /api/superhero/:id` (direct upstream lookup).

The upstream network is modelled by explicit outcome values: each
per-letter fetch either succeeds with a list of records or fails (the
handler's `catch` swallows the error), and the by-id lookup either yields
a reply with a `response` field or fails at the transport level.
JavaScript's `String.prototype.toLowerCase` is modelled on the ASCII
range by `Char.toLower`, and `String.prototype.includes` as the
unanchored infix test on character lists.
-/

/-- `biography` sub-object of an upstream hero record; `alignment == ""`
models a missing or empty alignment (both are JS-falsy). -/
structure Biography where
  alignment : String
  publisher : Option String
deriving DecidableEq

/-- One hero record as stored in `cachedHeroes`. -/
structure Record where
  id : String
  name : String
  biography : Biography
  imageUrl : Option String
deriving DecidableEq

/-- Model of JavaScript `s.toLowerCase()` on the ASCII range. -/
def jsToLower (s : String) : String := ⟨s.data.map Char.toLower⟩

/-- Model of JavaScript `s.includes(sub)`: unanchored substring test. -/
def jsIncludes (s sub : String) : Bool := decide (sub.data <:+: s.data)

/-- The merge step of `fetchHeroesByLetter` for one incoming hero
(server.js lines 63-65): push the hero only when no cached hero already
has its id. -/
def mergeHero (cachedHeroes : List Record) (hero : Record) : List Record :=
  if cachedHeroes.any fun cachedHero => cachedHero.id == hero.id then cachedHeroes
  else cachedHeroes ++ [hero]

/-- Outcome of one per-letter upstream fetch: the axios call either
resolves with a (possibly empty) `results` array or throws. -/
inductive FetchOutcome where
  | success (results : List Record)
  | failed
deriving DecidableEq

/-- `fetchHeroesByLetter` (server.js lines 54-72) as a state transformer
on `cachedHeroes`: on success every result is merged in order; on error
the `catch` block logs and leaves the cache unchanged. -/
def fetchHeroesByLetter (outcome : FetchOutcome) (cachedHeroes : List Record) : List Record :=
  match outcome with
  | .success results => results.foldl mergeHero cachedHeroes
  | .failed => cachedHeroes

/-- `initializeHeroCache` (server.js lines 75-80): sequential sweep over
the 26 letters, one `FetchOutcome` per letter. -/
def initializeHeroCache (outcomes : List FetchOutcome) (cachedHeroes : List Record) : List Record :=
  outcomes.foldl (fun cache outcome => fetchHeroesByLetter outcome cache) cachedHeroes

/-- The ids of the cached heroes, in cache order. -/
def idsOf (cachedHeroes : List Record) : List String := cachedHeroes.map Record.id

lemma mergeHero_of_mem_ids (cachedHeroes : List Record) (hero : Record)
    (h : hero.id ∈ idsOf cachedHeroes) : mergeHero cachedHeroes hero = cachedHeroes := by
  unfold mergeHero
  rw [if_pos]
  rcases List.mem_map.mp h with ⟨r, hr, hid⟩
  exact List.any_eq_true.mpr ⟨r, hr, beq_iff_eq.mpr hid⟩

lemma mergeHero_of_not_mem_ids (cachedHeroes : List Record) (hero : Record)
    (h : hero.id ∉ idsOf cachedHeroes) : mergeHero cachedHeroes hero = cachedHeroes ++ [hero] := by
  unfold mergeHero
  rw [if_neg]
  intro hc
  rcases List.any_eq_true.mp hc with ⟨r, hr, hid⟩
  exact h (List.mem_map.mpr ⟨r, hr, beq_iff_eq.mp hid⟩)

lemma idsOf_mergeHero_nodup (cachedHeroes : List Record) (hero : Record)
    (h : (idsOf cachedHeroes).Nodup) : (idsOf (mergeHero cachedHeroes hero)).Nodup := by
  by_cases hm : hero.id ∈ idsOf cachedHeroes
  · rw [mergeHero_of_mem_ids _ _ hm]; exact h
  · rw [mergeHero_of_not_mem_ids _ _ hm]
    unfold idsOf at *
    rw [List.map_append]
    simp [List.nodup_append, h]
    intro x hx hxe
    exact hm (hxe ▸ List.mem_map.mpr ⟨x, hx, rfl⟩)

lemma idsOf_foldl_mergeHero_nodup (results : List Record) :
    ∀ cachedHeroes : List Record, (idsOf cachedHeroes).Nodup →
      (idsOf (results.foldl mergeHero cachedHeroes)).Nodup := by
  induction results with
  | nil => intro cache h; exact h
  | cons r rest ih =>
    intro cache h
    rw [List.foldl_cons]
    exact ih _ (idsOf_mergeHero_nodup _ _ h)

lemma idsOf_initializeHeroCache_nodup (outcomes : List FetchOutcome) :
    ∀ cachedHeroes : List Record, (idsOf cachedHeroes).Nodup →
      (idsOf (initializeHeroCache outcomes cachedHeroes)).Nodup := by
  induction outcomes with
  | nil => intro cache h; exact h
  | cons o rest ih =>
    intro cache h
    unfold initializeHeroCache at *
    rw [List.foldl_cons]
    apply ih
    cases o with
    | success results => exact idsOf_foldl_mergeHero_nodup _ _ h
    | failed => exact h

lemma initializeHeroCache_all_failed (outcomes : List FetchOutcome)
    (h : ∀ o ∈ outcomes, o = FetchOutcome.failed) :
    ∀ cachedHeroes : List Record, initializeHeroCache outcomes cachedHeroes = cachedHeroes := by
  induction outcomes with
  | nil => intro cache; rfl
  | cons o rest ih =>
    intro cache
    unfold initializeHeroCache at *
    rw [List.foldl_cons, h o (List.mem_cons_self o rest), fetchHeroesByLetter]
    exact ih (fun o ho => h o (List.mem_cons_of_mem _ ho)) cache

lemma foldl_mergeHero_disjoint (results : List Record) :
    ∀ cachedHeroes : List Record, (∀ r ∈ results, r.id ∉ idsOf cachedHeroes) →
      (idsOf results).Nodup → results.foldl mergeHero cachedHeroes = cachedHeroes ++ results := by
  induction results with
  | nil => intro cache _ _; exact (List.append_nil cache).symm
  | cons r rest ih =>
    intro cache hdisj hnd
    rw [List.foldl_cons, mergeHero_of_not_mem_ids _ _ (hdisj r (List.mem_cons_self r rest))]
    have hnd' : (idsOf rest).Nodup := (List.nodup_cons.mp hnd).2
    have hhead : r.id ∉ idsOf rest := (List.nodup_cons.mp hnd).1
    have hdisj' : ∀ x ∈ rest, x.id ∉ idsOf (cache ++ [r]) := by
      intro x hx hmem
      unfold idsOf at hmem
      rw [List.map_append] at hmem
      rcases List.mem_append.mp hmem with hc | hr
      · exact hdisj x (List.mem_cons_of_mem _ hx) hc
      · have : x.id = r.id := by simpa using hr
        exact hhead (this ▸ List.mem_map.mpr ⟨x, hx, rfl⟩)
    rw [ih (cache ++ [r]) hdisj' hnd']
    simp

/-- Response of the `GET /api/heroes` route: the handler replies with the
filtered hero array, or 500 if the try block throws (unreachable in this
model, since the sweep swallows its own errors). -/
inductive HeroesResponse where
  | ok (heroes : List Record)
  | serverError
deriving DecidableEq

/-- What one `GET /api/heroes` request produces: the JSON response, the
cache it leaves behind, and whether it ran `initializeHeroCache`. -/
structure HeroesOutcome where
  response : HeroesResponse
  cacheAfter : List Record
  sweepRan : Bool
deriving DecidableEq

/-- The alignment filter of the `/api/heroes` handler (server.js lines
94-96): a JS-truthy `alignment` query parameter keeps the heroes whose
truthy `biography.alignment` equals it case-insensitively; otherwise the
whole cache is returned. `none` models an absent query parameter. -/
def filterByAlignment : Option String → List Record → List Record
  | none, cachedHeroes => cachedHeroes
  | some alignment, cachedHeroes =>
    if alignment == "" then cachedHeroes
    else cachedHeroes.filter fun hero =>
      !(hero.biography.alignment == "") &&
        (jsToLower hero.biography.alignment == jsToLower alignment)

/-- The `GET /api/heroes` handler (server.js lines 83-103): when the cache
is empty it first runs the full sweep, then answers with the
alignment-filtered cache. -/
def listHeroes (outcomes : List FetchOutcome) (alignment : Option String)
    (cachedHeroes : List Record) : HeroesOutcome :=
  let sweepRan := cachedHeroes.length == 0
  let cacheAfter :=
    if cachedHeroes.length == 0 then initializeHeroCache outcomes cachedHeroes
    else cachedHeroes
  { response := .ok (filterByAlignment alignment cacheAfter)
    cacheAfter := cacheAfter
    sweepRan := sweepRan }

/-- Response of the `GET /api/superhero` route: 400 for a missing or
empty `name`, 200 with the matches, or 404 when nothing matches. -/
inductive SearchResult where
  | invalidArgument
  | results (heroes : List Record)
  | notFound
deriving DecidableEq

/-- What one `GET /api/superhero` request produces; `upstreamCalls` lists
the axios requests made by the handler (the search route makes none). -/
structure SearchOutcome where
  result : SearchResult
  cacheAfter : List Record
  upstreamCalls : List String
deriving DecidableEq

/-- The `GET /api/superhero` handler (server.js lines 106-127):
lower-cases the `name` query parameter, rejects it when falsy, and
otherwise filters the cache by case-insensitive substring match on the
hero name. It never calls `initializeHeroCache` and never hits upstream. -/
def searchByName (name : Option String) (cachedHeroes : List Record) : SearchOutcome :=
  match name with
  | none => { result := .invalidArgument, cacheAfter := cachedHeroes, upstreamCalls := [] }
  | some n =>
    let heroName := jsToLower n
    if heroName == "" then
      { result := .invalidArgument, cacheAfter := cachedHeroes, upstreamCalls := [] }
    else
      let matchingHeroes := cachedHeroes.filter fun hero =>
        jsIncludes (jsToLower hero.name) heroName
      if matchingHeroes.length > 0 then
        { result := .results matchingHeroes, cacheAfter := cachedHeroes, upstreamCalls := [] }
      else
        { result := .notFound, cacheAfter := cachedHeroes, upstreamCalls := [] }

/-- Outcome of the upstream by-id axios call: a reply whose
`response` field is the given string, or a transport-level error. -/
inductive IdOutcome where
  | reply (responseField : String)
  | transportFailed
deriving DecidableEq

/-- Response of the `GET /api/superhero/:id` route. -/
inductive IdResult where
  | missingApiKey
  | heroDetails (responseField : String)
  | notFound
  | upstreamError
deriving DecidableEq

/-- What one `GET /api/superhero/:id` request produces; `upstreamCalls`
lists the ids requested upstream during the call. -/
structure IdLookupOutcome where
  result : IdResult
  cacheAfter : List Record
  upstreamCalls : List String
deriving DecidableEq

/-- The `GET /api/superhero/:id` handler (server.js lines 130-150):
requires the API key, always queries upstream, answers 200 with the
upstream payload when its `response` field is `success`, 404 otherwise,
and 500 on a transport error. The hero cache is never read or written. -/
def getById (apiKey : String) (upstream : String → IdOutcome) (heroId : String)
    (cachedHeroes : List Record) : IdLookupOutcome :=
  if apiKey == "" then
    { result := .missingApiKey, cacheAfter := cachedHeroes, upstreamCalls := [] }
  else
    match upstream heroId with
    | .reply responseField =>
      if responseField == "success" then
        { result := .heroDetails responseField, cacheAfter := cachedHeroes
          upstreamCalls := [heroId] }
      else
        { result := .notFound, cacheAfter := cachedHeroes, upstreamCalls := [heroId] }
    | .transportFailed =>
      { result := .upstreamError, cacheAfter := cachedHeroes, upstreamCalls := [heroId] }

lemma jsToLower_ne_empty (s : String) (h : s ≠ "") : jsToLower s ≠ "" := by
  intro hc
  apply h
  have h2 : s.data.map Char.toLower = ([] : List Char) := congrArg String.data hc
  have h3 : s.data = [] := by simpa using h2
  exact String.ext h3

lemma filterByAlignment_nil (alignment : Option String) : filterByAlignment alignment [] = [] := by
  cases alignment with
  | none => rfl
  | some a =>
    simp only [filterByAlignment, List.filter_nil, ite_self]

lemma searchByName_no_side_effects (name : Option String) (cachedHeroes : List Record) :
    (searchByName name cachedHeroes).cacheAfter = cachedHeroes ∧
      (searchByName name cachedHeroes).upstreamCalls = [] := by
  cases name with
  | none => exact ⟨rfl, rfl⟩
  | some n =>
    simp only [searchByName]
    split
    · exact ⟨rfl, rfl⟩
    · split <;> exact ⟨rfl, rfl⟩

lemma listHeroes_nonempty_cache (outcomes : List FetchOutcome) (alignment : Option String)
    (cachedHeroes : List Record) (h : cachedHeroes ≠ []) :
    (listHeroes outcomes alignment cachedHeroes).sweepRan = false ∧
      (listHeroes outcomes alignment cachedHeroes).cacheAfter = cachedHeroes := by
  have hlen : (cachedHeroes.length == 0) = false := by
    simp [List.length_eq_zero, h]
  exact ⟨by simp [listHeroes, hlen], by simp [listHeroes, hlen]⟩

lemma filterByAlignment_some_ne (alignment : String) (h : alignment ≠ "")
    (cachedHeroes : List Record) :
    filterByAlignment (some alignment) cachedHeroes =
      cachedHeroes.filter fun hero => !(hero.biography.alignment == "") &&
        (jsToLower hero.biography.alignment == jsToLower alignment) := by
  simp only [filterByAlignment]
  rw [if_neg (by simp [h])]

/-- Test fixture: a hero whose name contains `man` case-insensitively. -/
def spiderMan : Record :=
  { id := "620", name := "Spider-Man"
    biography := { alignment := "good", publisher := some "Marvel Comics" }
    imageUrl := none }

/-- Test fixture: a hero whose name does not contain `man`. -/
def batgirl : Record :=
  { id := "62", name := "Batgirl"
    biography := { alignment := "good", publisher := some "DC Comics" }
    imageUrl := none }

/-- Test fixture: first record carrying the duplicated id `99`. -/
def heroAlpha : Record :=
  { id := "99", name := "Alpha"
    biography := { alignment := "bad", publisher := none }
    imageUrl := none }

/-- Test fixture: second record carrying the duplicated id `99`, with a
different name than `heroAlpha`. -/
def heroBeta : Record :=
  { id := "99", name := "Beta"
    biography := { alignment := "neutral", publisher := none }
    imageUrl := none }

/-- C1 counterexample: when all 26 letter-fetches fail, the sweep leaves
the cache empty, and because the handler re-triggers the sweep whenever
`cachedHeroes.length === 0`, the very next query runs the sweep again —
so `Ready` is not terminal in the all-failure outcome the claim
explicitly includes. -/
theorem C1_counterexample :
    (listHeroes (List.replicate 26 FetchOutcome.failed) none []).sweepRan = true ∧
      (listHeroes (List.replicate 26 FetchOutcome.failed) none
        ((listHeroes (List.replicate 26 FetchOutcome.failed) none []).cacheAfter)).sweepRan
        = true := by
  decide

/-- C1 (amended): once the cache is non-empty — i.e. the sweep cached at
least one record — no later `/api/heroes` query ever runs the sweep again
and the cache is never cleared or replaced; but after a sweep that cached
nothing (e.g. all 26 letter-fetches failed) the next query does trigger
another sweep. -/
theorem C1_ready_terminal_amended (outcomes : List FetchOutcome) (alignment : Option String)
    (cachedHeroes : List Record) (h : cachedHeroes ≠ []) :
    (listHeroes outcomes alignment cachedHeroes).sweepRan = false ∧
      (listHeroes outcomes alignment cachedHeroes).cacheAfter = cachedHeroes :=
  listHeroes_nonempty_cache outcomes alignment cachedHeroes h

/-- C1 witness: the amended theorem applied to a one-record cache. -/
theorem C1_ready_terminal_amended_witness :
    ([spiderMan] : List Record) ≠ [] ∧
      ((listHeroes (List.replicate 26 FetchOutcome.failed) none [spiderMan]).sweepRan = false ∧
        (listHeroes (List.replicate 26 FetchOutcome.failed) none [spiderMan]).cacheAfter
          = [spiderMan]) :=
  ⟨by decide,
    C1_ready_terminal_amended (List.replicate 26 FetchOutcome.failed) none [spiderMan]
      (by decide)⟩

/-- C2 counterexample: `GET /api/superhero` with a never-populated cache
answers 404 directly — it performs no sweep, touches no upstream, and
leaves the cache empty, refuting the claim that every query operation
triggers the population sweep first. -/
theorem C2_counterexample :
    (searchByName (some "man") []).result = SearchResult.notFound ∧
      (searchByName (some "man") []).cacheAfter = [] ∧
      (searchByName (some "man") []).upstreamCalls = [] := by
  decide

/-- C2 (amended): only `listHeroes` (`GET /api/heroes`) triggers the
population sweep when the cache is empty; `searchByName`
(`GET /api/superhero`) never populates the cache nor calls upstream, so
it can answer from a never-populated cache. -/
theorem C2_only_listHeroes_sweeps_amended (outcomes : List FetchOutcome)
    (alignment : Option String) (name : Option String)
    (cachedHeroes cachePopulated : List Record) (h : cachePopulated ≠ []) :
    (listHeroes outcomes alignment []).sweepRan = true ∧
      (listHeroes outcomes alignment cachePopulated).sweepRan = false ∧
      (searchByName name cachedHeroes).cacheAfter = cachedHeroes ∧
      (searchByName name cachedHeroes).upstreamCalls = [] :=
  ⟨rfl, (listHeroes_nonempty_cache outcomes alignment cachePopulated h).1,
    (searchByName_no_side_effects name cachedHeroes).1,
    (searchByName_no_side_effects name cachedHeroes).2⟩

/-- C2 witness: the amended theorem applied to concrete caches. -/
theorem C2_only_listHeroes_sweeps_amended_witness :
    ([spiderMan] : List Record) ≠ [] ∧
      ((listHeroes [] none []).sweepRan = true ∧
        (listHeroes [] none [spiderMan]).sweepRan = false ∧
        (searchByName (some "man") [batgirl]).cacheAfter = [batgirl] ∧
        (searchByName (some "man") [batgirl]).upstreamCalls = []) :=
  ⟨by decide, C2_only_listHeroes_sweeps_amended [] none (some "man") [batgirl] [spiderMan]
    (by decide)⟩

/-- C3: the merge step dedups by id — starting from a cache with no
duplicate ids, the cache after any sweep still has no duplicate ids —
and is first-seen-wins: two letters both yielding a record with the same
id leave exactly the first-merged record in the cache. -/
theorem C3_dedup_first_seen_wins (outcomes : List FetchOutcome) (cachedHeroes : List Record)
    (h : (idsOf cachedHeroes).Nodup) :
    (idsOf (initializeHeroCache outcomes cachedHeroes)).Nodup ∧
      ∀ r1 r2 : Record, r1.id = r2.id →
        initializeHeroCache [FetchOutcome.success [r1], FetchOutcome.success [r2]] [] = [r1] := by
  refine ⟨idsOf_initializeHeroCache_nodup outcomes cachedHeroes h, ?_⟩
  intro r1 r2 hid
  simp [initializeHeroCache, fetchHeroesByLetter, mergeHero, hid]

/-- C3 witness: the theorem applied to a concrete sweep and to the
fixtures `heroAlpha` and `heroBeta`, which share id `99`. -/
theorem C3_dedup_first_seen_wins_witness :
    (idsOf ([] : List Record)).Nodup ∧
      ((idsOf (initializeHeroCache [FetchOutcome.success [spiderMan, batgirl]] [])).Nodup ∧
        initializeHeroCache [FetchOutcome.success [heroAlpha], FetchOutcome.success [heroBeta]] []
          = [heroAlpha]) :=
  ⟨by decide,
    (C3_dedup_first_seen_wins [FetchOutcome.success [spiderMan, batgirl]] [] (by decide)).1,
    (C3_dedup_first_seen_wins [FetchOutcome.success [spiderMan, batgirl]] [] (by decide)).2
      heroAlpha heroBeta rfl⟩

/-- C4: per-letter failures are swallowed — with 25 of the 26 letter
fetches failing and one succeeding with a duplicate-free list of records,
the triggering `/api/heroes` request completes with exactly those records
cached and a success response carrying them, never an error. -/
theorem C4_partial_failure_resilience (i : Nat) (hi : i ≤ 25) (results : List Record)
    (hnd : (idsOf results).Nodup) :
    (listHeroes (List.replicate i FetchOutcome.failed ++
        FetchOutcome.success results :: List.replicate (25 - i) FetchOutcome.failed)
        none []).cacheAfter = results ∧
      (listHeroes (List.replicate i FetchOutcome.failed ++
        FetchOutcome.success results :: List.replicate (25 - i) FetchOutcome.failed)
        none []).response = HeroesResponse.ok results ∧
      (listHeroes (List.replicate i FetchOutcome.failed ++
        FetchOutcome.success results :: List.replicate (25 - i) FetchOutcome.failed)
        none []).sweepRan = true := by
  have hcache : initializeHeroCache (List.replicate i FetchOutcome.failed ++
      FetchOutcome.success results :: List.replicate (25 - i) FetchOutcome.failed) [] = results := by
    unfold initializeHeroCache
    rw [List.foldl_append]
    have h1 : List.foldl (fun cache outcome => fetchHeroesByLetter outcome cache) []
        (List.replicate i FetchOutcome.failed) = ([] : List Record) :=
      initializeHeroCache_all_failed _ (fun o ho => (List.mem_replicate.mp ho).2) []
    rw [h1, List.foldl_cons]
    have h2 : fetchHeroesByLetter (FetchOutcome.success results) [] = results := by
      show results.foldl mergeHero [] = results
      rw [foldl_mergeHero_disjoint results [] (by intro r _ hmem; simp [idsOf] at hmem) hnd]
      simp
    rw [h2]
    exact initializeHeroCache_all_failed _ (fun o ho => (List.mem_replicate.mp ho).2) results
  refine ⟨by simp [listHeroes, hcache], ?_, rfl⟩
  simp [listHeroes, hcache, filterByAlignment]

/-- C4 witness: the theorem applied with the success at letter index 3
and two concrete records. -/
theorem C4_partial_failure_resilience_witness :
    (3 ≤ 25 ∧ (idsOf [spiderMan, batgirl]).Nodup) ∧
      ((listHeroes (List.replicate 3 FetchOutcome.failed ++
          FetchOutcome.success [spiderMan, batgirl] :: List.replicate (25 - 3) FetchOutcome.failed)
          none []).cacheAfter = [spiderMan, batgirl] ∧
        (listHeroes (List.replicate 3 FetchOutcome.failed ++
          FetchOutcome.success [spiderMan, batgirl] :: List.replicate (25 - 3) FetchOutcome.failed)
          none []).response = HeroesResponse.ok [spiderMan, batgirl] ∧
        (listHeroes (List.replicate 3 FetchOutcome.failed ++
          FetchOutcome.success [spiderMan, batgirl] :: List.replicate (25 - 3) FetchOutcome.failed)
          none []).sweepRan = true) :=
  ⟨⟨by decide, by decide⟩,
    C4_partial_failure_resilience 3 (by decide) [spiderMan, batgirl] (by decide)⟩

/-- C5: for a non-empty `alignment` argument the handler keeps exactly
the cached heroes whose non-empty alignment equals it case-insensitively
(the result is that filter, hence a subsequence of the cache, and heroes
with empty alignment are never in it); an empty or absent argument
returns the whole cache; and `GOOD` filters identically to `good`. -/
theorem C5_queryByAlignment (cachedHeroes : List Record) (alignment : String)
    (h : alignment ≠ "") :
    filterByAlignment (some alignment) cachedHeroes =
        cachedHeroes.filter (fun hero => decide (hero.biography.alignment ≠ "" ∧
          jsToLower hero.biography.alignment = jsToLower alignment)) ∧
      (∀ hero, hero.biography.alignment = "" →
        hero ∉ filterByAlignment (some alignment) cachedHeroes) ∧
      (filterByAlignment (some alignment) cachedHeroes).Sublist cachedHeroes ∧
      filterByAlignment (some "") cachedHeroes = cachedHeroes ∧
      filterByAlignment none cachedHeroes = cachedHeroes ∧
      filterByAlignment (some "GOOD") cachedHeroes = filterByAlignment (some "good") cachedHeroes := by
  have heq : filterByAlignment (some alignment) cachedHeroes =
      cachedHeroes.filter (fun hero => decide (hero.biography.alignment ≠ "" ∧
        jsToLower hero.biography.alignment = jsToLower alignment)) := by
    rw [filterByAlignment_some_ne alignment h]
    apply List.filter_congr
    intro x _
    by_cases h1 : x.biography.alignment = ""
    · simp [h1]
    · by_cases h2 : jsToLower x.biography.alignment = jsToLower alignment
      · simp [h1, h2]
      · simp [h1, h2]
  have hgood : jsToLower "GOOD" = jsToLower "good" := by decide
  refine ⟨heq, ?_, ?_, ?_, rfl, ?_⟩
  · intro hero hal
    rw [heq]
    simp [List.mem_filter, hal]
  · rw [heq]
    exact List.filter_sublist _
  · simp only [filterByAlignment]
    rw [if_pos (by decide)]
  · rw [filterByAlignment_some_ne "GOOD" (by decide),
      filterByAlignment_some_ne "good" (by decide), hgood]

/-- C5 witness: the theorem applied with the argument `GOOD` to a
two-record cache. -/
theorem C5_queryByAlignment_witness :
    ("GOOD" : String) ≠ "" ∧
      (filterByAlignment (some "GOOD") [spiderMan, batgirl] =
          [spiderMan, batgirl].filter (fun hero => decide (hero.biography.alignment ≠ "" ∧
            jsToLower hero.biography.alignment = jsToLower "GOOD")) ∧
        (∀ hero, hero.biography.alignment = "" →
          hero ∉ filterByAlignment (some "GOOD") [spiderMan, batgirl]) ∧
        (filterByAlignment (some "GOOD") [spiderMan, batgirl]).Sublist [spiderMan, batgirl] ∧
        filterByAlignment (some "") [spiderMan, batgirl] = [spiderMan, batgirl] ∧
        filterByAlignment none [spiderMan, batgirl] = [spiderMan, batgirl] ∧
        filterByAlignment (some "GOOD") [spiderMan, batgirl] =
          filterByAlignment (some "good") [spiderMan, batgirl]) :=
  ⟨by decide, C5_queryByAlignment [spiderMan, batgirl] "GOOD" (by decide)⟩

lemma searchByName_result_of_ne (text : String) (cachedHeroes : List Record)
    (h : jsToLower text ≠ "") :
    (searchByName (some text) cachedHeroes).result =
      if (cachedHeroes.filter fun hero =>
          jsIncludes (jsToLower hero.name) (jsToLower text)).length > 0 then
        SearchResult.results (cachedHeroes.filter fun hero =>
          jsIncludes (jsToLower hero.name) (jsToLower text))
      else SearchResult.notFound := by
  by_cases hm : (cachedHeroes.filter fun hero =>
      jsIncludes (jsToLower hero.name) (jsToLower text)).length > 0
  · simp [searchByName, h, hm]
  · simp [searchByName, h, hm]

/-- C6: for every non-empty search text, the `/api/superhero` handler
answers 404 exactly when no cached hero's lower-cased name contains the
lower-cased text, and otherwise returns precisely that filtered list;
concretely, `man` matches `Spider-Man` and excludes `Batgirl`. -/
theorem C6_searchByName (cachedHeroes : List Record) (text : String) (h : text ≠ "") :
    ((searchByName (some text) cachedHeroes).result = SearchResult.notFound ↔
        cachedHeroes.filter (fun hero => jsIncludes (jsToLower hero.name) (jsToLower text)) = []) ∧
      (∀ found, found = cachedHeroes.filter
          (fun hero => jsIncludes (jsToLower hero.name) (jsToLower text)) →
        found ≠ [] → (searchByName (some text) cachedHeroes).result = SearchResult.results found) ∧
      (searchByName (some "man") [spiderMan, batgirl]).result = SearchResult.results [spiderMan] := by
  have hr := searchByName_result_of_ne text cachedHeroes (jsToLower_ne_empty text h)
  refine ⟨?_, ?_, by decide⟩
  · rw [hr]
    by_cases hm : (cachedHeroes.filter fun hero =>
        jsIncludes (jsToLower hero.name) (jsToLower text)) = []
    · simp [hm]
    · have hpos : 0 < (cachedHeroes.filter fun hero =>
          jsIncludes (jsToLower hero.name) (jsToLower text)).length := List.length_pos.mpr hm
      simp [hpos, hm]
  · intro found hfeq hfne
    subst hfeq
    have hpos : 0 < (cachedHeroes.filter fun hero =>
        jsIncludes (jsToLower hero.name) (jsToLower text)).length := List.length_pos.mpr hfne
    rw [hr]
    simp [hpos]

/-- C6 witness: the theorem applied with text `man` to the two-record
fixture cache. -/
theorem C6_searchByName_witness :
    ("man" : String) ≠ "" ∧
      (searchByName (some "man") [spiderMan, batgirl]).result = SearchResult.results [spiderMan] :=
  ⟨by decide, (C6_searchByName [spiderMan, batgirl] "man" (by decide)).2.2⟩

/-- C7: a missing or empty `name` query parameter makes the
`/api/superhero` handler answer 400 immediately; the cache is left
unchanged, no upstream request is made, and the answer does not depend
on the cache contents at all. -/
theorem C7_empty_name_rejected (cachedHeroes otherCache : List Record) :
    searchByName (some "") cachedHeroes =
        { result := SearchResult.invalidArgument, cacheAfter := cachedHeroes,
          upstreamCalls := [] } ∧
      searchByName none cachedHeroes =
        { result := SearchResult.invalidArgument, cacheAfter := cachedHeroes,
          upstreamCalls := [] } ∧
      (searchByName (some "") cachedHeroes).result = (searchByName (some "") otherCache).result :=
  ⟨rfl, rfl, rfl⟩

/-- C8: with the API key configured, `GET /api/superhero/:id` always
makes exactly one fresh upstream call for the requested id, leaves
the cache untouched, answers independently of the cache contents, and
answers 404 exactly when upstream replies with a `response` field other
than `success`. -/
theorem C8_getById_bypasses_cache (apiKey : String) (h : apiKey ≠ "")
    (upstream : String → IdOutcome) (heroId : String)
    (cachedHeroes otherCache : List Record) :
    (getById apiKey upstream heroId cachedHeroes).upstreamCalls = [heroId] ∧
      (getById apiKey upstream heroId cachedHeroes).cacheAfter = cachedHeroes ∧
      (getById apiKey upstream heroId cachedHeroes).result =
        (getById apiKey upstream heroId otherCache).result ∧
      ((getById apiKey upstream heroId cachedHeroes).result = IdResult.notFound ↔
        ∃ r, upstream heroId = IdOutcome.reply r ∧ r ≠ "success") := by
  have hk : (apiKey == "") = false := beq_eq_false_iff_ne.mpr h
  cases hu : upstream heroId with
  | reply r =>
    by_cases hs : r = "success"
    · refine ⟨?_, ?_, ?_, ?_⟩ <;> simp [getById, hk, hu, hs]
    · refine ⟨?_, ?_, ?_, ?_⟩ <;> simp [getById, hk, hu, hs]
  | transportFailed => refine ⟨?_, ?_, ?_, ?_⟩ <;> simp [getById, hk, hu]

/-- C8 witness: the theorem applied to a concrete key, an upstream that
reports no match for id `42`, and a non-empty (Ready) cache. -/
theorem C8_getById_bypasses_cache_witness :
    ("testkey" : String) ≠ "" ∧
      ((getById "testkey" (fun _ => IdOutcome.reply "error") "42" [spiderMan]).upstreamCalls
          = ["42"] ∧
        (getById "testkey" (fun _ => IdOutcome.reply "error") "42" [spiderMan]).cacheAfter
          = [spiderMan] ∧
        (getById "testkey" (fun _ => IdOutcome.reply "error") "42" [spiderMan]).result =
          (getById "testkey" (fun _ => IdOutcome.reply "error") "42" []).result ∧
        ((getById "testkey" (fun _ => IdOutcome.reply "error") "42" [spiderMan]).result
            = IdResult.notFound ↔
          ∃ r, (fun _ => IdOutcome.reply "error") "42" = IdOutcome.reply r ∧ r ≠ "success")) :=
  ⟨by decide,
    C8_getById_bypasses_cache "testkey" (by decide) (fun _ => IdOutcome.reply "error") "42"
      [spiderMan] []⟩

/-- C9 counterexample: after a sweep in which all 26 letter-fetches
failed, the triggering request does answer `200 []`, but the cache is
left empty, so the next `/api/heroes` request runs the sweep again —
the catalog was not marked `Ready` as the claim states. -/
theorem C9_counterexample :
    (listHeroes (List.replicate 26 FetchOutcome.failed) (some "good") []).response
        = HeroesResponse.ok [] ∧
      (listHeroes (List.replicate 26 FetchOutcome.failed) (some "good")
        ((listHeroes (List.replicate 26 FetchOutcome.failed) (some "good") []).cacheAfter)).sweepRan
        = true := by
  decide

/-- C9 (amended): when every letter-fetch of the sweep fails, the caller
of `/api/heroes` receives an empty success response, never an error; the
cache, however, stays empty, so the catalog is not marked ready and a
later query re-runs the sweep. -/
theorem C9_total_failure_empty_ok_amended (outcomes : List FetchOutcome)
    (alignment : Option String) (h : ∀ o ∈ outcomes, o = FetchOutcome.failed) :
    (listHeroes outcomes alignment []).response = HeroesResponse.ok [] ∧
      (listHeroes outcomes alignment []).cacheAfter = [] ∧
      (listHeroes outcomes alignment []).sweepRan = true := by
  have hcache : initializeHeroCache outcomes [] = [] :=
    initializeHeroCache_all_failed outcomes h []
  refine ⟨?_, ?_, rfl⟩
  · simp [listHeroes, hcache, filterByAlignment_nil]
  · simp [listHeroes, hcache]

/-- C9 witness: the amended theorem applied to 26 failed fetches with a
`good` alignment filter. -/
theorem C9_total_failure_empty_ok_amended_witness :
    (∀ o ∈ List.replicate 26 FetchOutcome.failed, o = FetchOutcome.failed) ∧
      ((listHeroes (List.replicate 26 FetchOutcome.failed) (some "good") []).response
          = HeroesResponse.ok [] ∧
        (listHeroes (List.replicate 26 FetchOutcome.failed) (some "good") []).cacheAfter = [] ∧
        (listHeroes (List.replicate 26 FetchOutcome.failed) (some "good") []).sweepRan = true) :=
  ⟨by decide,
    C9_total_failure_empty_ok_amended (List.replicate 26 FetchOutcome.failed) (some "good")
      (by decide)⟩

/-- C10: the `/api/heroes` handler never validates the alignment value:
any non-empty string outside `good`/`bad`/`neutral` still produces a
success response holding the case-insensitive alignment filter of the
(possibly freshly swept) cache, not an `InvalidArgument` error. -/
theorem C10_no_alignment_validation (outcomes : List FetchOutcome)
    (cachedHeroes : List Record) (alignment : String) (h0 : alignment ≠ "")
    (h1 : alignment ≠ "good") (h2 : alignment ≠ "bad") (h3 : alignment ≠ "neutral") :
    (listHeroes outcomes (some alignment) cachedHeroes).response =
      HeroesResponse.ok ((listHeroes outcomes (some alignment) cachedHeroes).cacheAfter.filter
        fun hero => !(hero.biography.alignment == "") &&
          (jsToLower hero.biography.alignment == jsToLower alignment)) := by
  simp only [listHeroes]
  rw [filterByAlignment_some_ne alignment h0]

/-- C10 witness: the theorem applied with the out-of-domain alignment
value `evil` and a two-record cache. -/
theorem C10_no_alignment_validation_witness :
    (("evil" : String) ≠ "" ∧ ("evil" : String) ≠ "good" ∧ ("evil" : String) ≠ "bad" ∧
        ("evil" : String) ≠ "neutral") ∧
      (listHeroes [] (some "evil") [spiderMan, batgirl]).response =
        HeroesResponse.ok ((listHeroes [] (some "evil") [spiderMan, batgirl]).cacheAfter.filter
          fun hero => !(hero.biography.alignment == "") &&
            (jsToLower hero.biography.alignment == jsToLower "evil")) :=
  ⟨⟨by decide, by decide, by decide, by decide⟩,
    C10_no_alignment_validation [] [spiderMan, batgirl] "evil" (by decide) (by decide)
      (by decide) (by decide)⟩
